import Mathlib

/-!
Shallow embedding of the childprocess job-orchestration service
(Go sources: internal/jobs/manager.go, internal/jobs (store, types,
log streamer), internal/executor/runner.go, internal/webhook sender).

Conventions of the embedding:
* Go strings are Lean `String`s (all inputs of interest are ASCII, so
  Go's byte length `len(s)` coincides with `String.length`).
* `time.Time` values are abstract `Nat` timestamps; durations are `Nat`
  milliseconds.
* Go pointers into the store are modelled with an explicit heap:
  `MState.heap` is the list of allocated `Job` records and a "pointer"
  is an index into it; the store's map (`sync.Map`) sends a job id to
  such an index, exactly as `InMemoryStore` stores `*Job` values.
* Fallible operations return `Option`/`Except`; `error` values are the
  Go error strings built by the source.
-/

namespace Childprocess

/-! ## Data model (internal/jobs types.go / part_000, plus the
terminal-result fields `ExitCode`, `Stdout`, `Stderr` that
`Manager.execute` assigns (`job.ExitCode = &result.ExitCode` etc.);
their declaration is not among the provided sources, but the spec's
data model lists them as terminal-only `*int`/`*string` fields, hence
`Option` here. -/

inductive JobStatus where
  | queued
  | inProgress
  | completed
  | failed
deriving DecidableEq, Repr

structure CreateJobRequest where
  command : String
  args : List String
  workingDir : String
  webhookURL : String
  metadata : List (String × String)
deriving DecidableEq, Repr

structure Job where
  id : String
  command : String
  args : List String
  workingDir : String
  webhookURL : String
  metadata : List (String × String)
  status : JobStatus
  error : String
  createdAt : Nat
  startedAt : Option Nat
  completedAt : Option Nat
  exitCode : Option Int
  stdout : Option String
  stderr : Option String
deriving DecidableEq, Repr

/-! ## Process executor (internal/executor/runner.go) -/

structure ExecutionResult where
  jobID : String
  exitCode : Int
  stdout : String
  stderr : String
  startTime : Nat
  endTime : Nat
  duration : Nat
  error : Option String
deriving DecidableEq, Repr

structure ExecutorConfig where
  defaultCommand : String
  captureOutput : Bool
  maxOutputSize : Int
  logOutput : Bool
  streamOutput : Bool
  verboseLogging : Bool
deriving DecidableEq, Repr

/-- Default configuration built by `NewExecRunner` when no options are
given; `DefaultCommand` comes from the environment, passed in here. -/
def defaultExecConfig (envDefaultCommand : String) : ExecutorConfig :=
  { defaultCommand := envDefaultCommand
    captureOutput := true
    maxOutputSize := 1024 * 1024
    logOutput := true
    streamOutput := false
    verboseLogging := false }

/-- Behaviour of the underlying OS process, the executor's environment:
either `cmd.Start()` fails, or the process runs, writes the given bytes
to its stdout/stderr, and `cmd.Wait()` ends with an exit code (Go error
`*exec.ExitError` exactly when the code is non-zero) or with a
non-`ExitError` failure. -/
inductive ProcOutcome where
  | startFail (msg : String)
  | exited (code : Int) (outBytes : String) (errBytes : String)
  | waitFailNonExit (msg : String) (outBytes : String) (errBytes : String)
deriving DecidableEq, Repr

/-- Go's `(*exec.ExitError).Error()` text for a clean non-zero exit. -/
def exitStatusMsg (code : Int) : String :=
  "exit status " ++ toString code

/-- Result of `runWithCapturedOutput`: the `ExecutionResult`, the
returned error, the contents of the two local `strings.Builder`s fed by
`io.MultiWriter`, and the bytes forwarded to the caller's writers. -/
structure CapturedRun where
  result : ExecutionResult
  errMsg : Option String
  stdoutBuilder : String
  stderrBuilder : String
  stdoutForwarded : String
  stderrForwarded : String
deriving DecidableEq, Repr

/-- Embeds `execRunner.runWithCapturedOutput`.  `cmd.Stdout` is
`io.MultiWriter(&stdoutBuilder, stdout)`: the builders and the caller's
writers receive the same bytes.  On a wait error that is an
`*exec.ExitError` the exit code is recorded and
`result.Error = fmt.Errorf("command execution failed: %w", err)`; on a
non-`ExitError` wait error the exit code is `-1`.  Note the source
never copies `stdoutBuilder`/`stderrBuilder` into
`result.Stdout`/`result.Stderr` on this path. -/
def runWithCapturedOutput (outcome : ProcOutcome) (r0 : ExecutionResult) :
    CapturedRun :=
  match outcome with
  | .startFail msg =>
      let e := "failed to start command: " ++ msg
      { result := { r0 with error := some e }
        errMsg := some e
        stdoutBuilder := ""
        stderrBuilder := ""
        stdoutForwarded := ""
        stderrForwarded := "" }
  | .exited code outBytes errBytes =>
      let r1 :=
        if code = 0 then { r0 with exitCode := 0, error := none }
        else { r0 with exitCode := code
                       error := some ("command execution failed: " ++ exitStatusMsg code) }
      { result := r1
        errMsg := r1.error
        stdoutBuilder := outBytes
        stderrBuilder := errBytes
        stdoutForwarded := outBytes
        stderrForwarded := errBytes }
  | .waitFailNonExit msg outBytes errBytes =>
      let r1 := { r0 with exitCode := -1
                          error := some ("command execution failed: " ++ msg) }
      { result := r1
        errMsg := r1.error
        stdoutBuilder := outBytes
        stderrBuilder := errBytes
        stdoutForwarded := outBytes
        stderrForwarded := errBytes }

/-- One step of the scan loop in `execRunner.streamAndCapture`: the line
is appended (with a newline) to the builder only when the configured
maximum is unlimited (`MaxOutputSize <= 0`) or the builder's current
length is still below it. -/
def streamAndCaptureStep (maxOutputSize : Int) (acc : String) (line : String) :
    String :=
  if maxOutputSize ≤ 0 ∨ (acc.length : Int) < maxOutputSize then
    acc ++ line ++ "\n"
  else acc

/-- Embeds `execRunner.streamAndCapture` over the scanned lines of one stream:
returns the builder contents and the newline-terminated lines forwarded
to the caller-supplied writer (forwarding is unconditional). -/
def streamAndCapture (maxOutputSize : Int) (lines : List String) :
    String × List String :=
  (lines.foldl (streamAndCaptureStep maxOutputSize) "",
   lines.map (fun l => l ++ "\n"))

/-- Go `bufio.Scanner` line splitting: lines separated by newline, the
separator stripped, a trailing incomplete line still delivered, and no
empty final token after a trailing newline. -/
def scanLines (s : String) : List String :=
  let parts := s.splitOn "\n"
  if parts.getLast? = some "" then parts.dropLast else parts

/-- Embeds `execRunner.runWithStreamedOutput`: both pipes are drained through
`streamAndCapture`, the builders are copied into
`result.Stdout`/`result.Stderr`, and the exit handling matches
`runWithCapturedOutput`. -/
def runWithStreamedOutput (cfg : ExecutorConfig) (outcome : ProcOutcome)
    (r0 : ExecutionResult) : CapturedRun :=
  match outcome with
  | .startFail msg =>
      let e := "failed to start command: " ++ msg
      { result := { r0 with error := some e }
        errMsg := some e
        stdoutBuilder := ""
        stderrBuilder := ""
        stdoutForwarded := ""
        stderrForwarded := "" }
  | .exited code outBytes errBytes =>
      let outCap := streamAndCapture cfg.maxOutputSize (scanLines outBytes)
      let errCap := streamAndCapture cfg.maxOutputSize (scanLines errBytes)
      let r1 := { r0 with stdout := outCap.1, stderr := errCap.1 }
      let r2 :=
        if code = 0 then { r1 with exitCode := 0, error := none }
        else { r1 with exitCode := code
                       error := some ("command execution failed: " ++ exitStatusMsg code) }
      { result := r2
        errMsg := r2.error
        stdoutBuilder := outCap.1
        stderrBuilder := errCap.1
        stdoutForwarded := String.join outCap.2
        stderrForwarded := String.join errCap.2 }
  | .waitFailNonExit msg outBytes errBytes =>
      let outCap := streamAndCapture cfg.maxOutputSize (scanLines outBytes)
      let errCap := streamAndCapture cfg.maxOutputSize (scanLines errBytes)
      let r1 := { r0 with stdout := outCap.1, stderr := errCap.1
                          exitCode := -1
                          error := some ("command execution failed: " ++ msg) }
      { result := r1
        errMsg := r1.error
        stdoutBuilder := outCap.1
        stderrBuilder := errCap.1
        stdoutForwarded := String.join outCap.2
        stderrForwarded := String.join errCap.2 }

/-- Embeds `execRunner.runSimpleWithOutput`: builders attached directly to the
command, copied into the result; same exit handling; nothing forwarded
to caller writers. -/
def runSimpleWithOutput (outcome : ProcOutcome) (r0 : ExecutionResult) :
    CapturedRun :=
  match outcome with
  | .startFail msg =>
      let e := "command execution failed: " ++ msg
      { result := { r0 with exitCode := -1, error := some e }
        errMsg := some e
        stdoutBuilder := ""
        stderrBuilder := ""
        stdoutForwarded := ""
        stderrForwarded := "" }
  | .exited code outBytes errBytes =>
      let r1 := { r0 with stdout := outBytes, stderr := errBytes }
      let r2 :=
        if code = 0 then { r1 with exitCode := 0, error := none }
        else { r1 with exitCode := code
                       error := some ("command execution failed: " ++ exitStatusMsg code) }
      { result := r2
        errMsg := r2.error
        stdoutBuilder := outBytes
        stderrBuilder := errBytes
        stdoutForwarded := ""
        stderrForwarded := "" }
  | .waitFailNonExit msg outBytes errBytes =>
      let r1 := { r0 with stdout := outBytes, stderr := errBytes
                          exitCode := -1
                          error := some ("command execution failed: " ++ msg) }
      { result := r1
        errMsg := r1.error
        stdoutBuilder := outBytes
        stderrBuilder := errBytes
        stdoutForwarded := ""
        stderrForwarded := "" }

/-- Go's `unicode.IsSpace` on the code points relevant to
`strings.TrimSpace` (the Latin-1 range; the claims only exercise ASCII
input). -/
def isGoSpace (c : Char) : Bool :=
  c = ' ' ∨ c = '\t' ∨ c = '\n' ∨ c = '\x0b' ∨ c = '\x0c' ∨ c = '\r'
    ∨ c = '\x85' ∨ c = '\xA0'

/-- Go's `strings.TrimSpace`: strip leading and trailing white space. -/
def trimSpaceGo (s : String) : String :=
  String.mk (((s.data.dropWhile isGoSpace).reverse.dropWhile isGoSpace).reverse)

/-- Embeds `execRunner.validateInput`. -/
def validateInput (cfg : ExecutorConfig) (command jobID : String) :
    Option String :=
  if trimSpaceGo jobID = "" then some "jobID cannot be empty"
  else if command = "" ∧ cfg.defaultCommand = "" then
    some "command must not be empty and no default command configured"
  else none

/-- A file system view for `os.Stat`: `none` when the path does not
exist, otherwise `some isDir`. -/
def FileSystem := String → Option Bool

/-- Embeds `execRunner.validateWorkingDir` against a file-system view;
`statErrMsg` is the `os.Stat` error text wrapped by the source. -/
def validateWorkingDir (fs : FileSystem) (statErrMsg : String)
    (workingDir : String) : Option String :=
  if workingDir = "" then none
  else
    match fs workingDir with
    | none => some ("working directory does not exist: " ++ statErrMsg)
    | some isDir =>
        if isDir then none else some "working directory path is not a directory"

/-- Return value of `execRunner.Run` as seen by the manager: the
(possibly nil) `*ExecutionResult` and the (possibly nil) error, plus
what was written to the caller's stdout/stderr writers. -/
structure RunReturn where
  res : Option ExecutionResult
  errMsg : Option String
  stdoutForwarded : String
  stderrForwarded : String
deriving DecidableEq, Repr

/-- Embeds `execRunner.Run`: validate, substitute the default command,
validate the working directory, then dispatch on the configuration to
one of the three execution paths. -/
def execRun (cfg : ExecutorConfig) (fs : FileSystem) (statErrMsg : String)
    (jobID command : String) (args : List String) (workingDir : String)
    (startTime : Nat) (outcome : ProcOutcome) : RunReturn :=
  match validateInput cfg command jobID with
  | some e =>
      { res := none, errMsg := some ("validation failed: " ++ e)
        stdoutForwarded := "", stderrForwarded := "" }
  | none =>
    let r0 : ExecutionResult :=
      { jobID := jobID, exitCode := 0, stdout := "", stderr := ""
        startTime := startTime, endTime := 0, duration := 0, error := none }
    -- command' is unused hereafter in the model: the process behaviour
    -- is already fixed by `outcome`, as in the source it only feeds
    -- exec.CommandContext.
    let workingDirCheck :=
      if workingDir = "" then none
      else validateWorkingDir fs statErrMsg workingDir
    match workingDirCheck with
    | some e =>
        { res := none, errMsg := some ("invalid working directory: " ++ e)
          stdoutForwarded := "", stderrForwarded := "" }
    | none =>
      let run : CapturedRun :=
        if cfg.captureOutput then
          if cfg.streamOutput then runWithStreamedOutput cfg outcome r0
          else runWithCapturedOutput outcome r0
        else runSimpleWithOutput outcome r0
      { res := some run.result, errMsg := run.errMsg
        stdoutForwarded := run.stdoutForwarded
        stderrForwarded := run.stderrForwarded }

/-! ## Webhook notifier (internal/webhook sender.go / part_002) -/

/-- Notification event payload (`webhook.Event`; `Data` carries the job
snapshot). -/
structure Event where
  jobID : String
  status : String
  error : String
  timestamp : Nat
  metadata : List (String × String)
  data : Job
deriving DecidableEq, Repr

/-- Outcome of one `s.client.Do(req)` round trip: either an HTTP
response with a status code and status text, or a transport error. -/
inductive AttemptResult where
  | resp (code : Nat) (status : String)
  | fail (msg : String)
deriving DecidableEq, Repr

/-- Condition under which `Notify` returns nil for an attempt:
`err == nil && resp != nil && resp.StatusCode >= 200 && resp.StatusCode < 300`. -/
def attemptOk : AttemptResult → Bool
  | .resp code _ => 200 ≤ code ∧ code < 300
  | .fail _ => false

/-- The `lastErr` recorded after a failed attempt: `errors.New(resp.Status)`
for a non-2xx response, the transport error otherwise. -/
def errText : AttemptResult → String
  | .resp _ status => status
  | .fail msg => msg

/-- The sleep before the next attempt, in milliseconds:
`baseBackoff * (1 << attempt)` plus the jitter
`time.Duration(int64(time.Millisecond)*int64(attempt*50))`. -/
def backoffMs (base attempt : Nat) : Nat :=
  base * 2 ^ attempt + attempt * 50

/-- What a run of `httpsender.Notify` did: its return value, how many
HTTP requests were issued, and the completed backoff sleeps (in ms). -/
structure NotifyRun where
  ret : Except String Unit
  attempts : Nat
  waits : List Nat
deriving Repr

/-- The retry loop of `httpsender.Notify`, recursing on the remaining
loop iterations (`maxRetries + 1` in total).  Environment:
`buildErr a` is the error of `http.NewRequestWithContext` on iteration
`a` (returned at once, before any request); `env a` is the round-trip
outcome of iteration `a`; `cancel a = some msg` means the context is
cancelled (with `ctx.Err()` text `msg`) during the backoff wait that
follows iteration `a`, making the `select` take `ctx.Done()`. -/
def notifyGo (env : Nat → AttemptResult) (cancel : Nat → Option String)
    (buildErr : Nat → Option String) :
    Nat → Nat → Option String → Nat → List Nat → NotifyRun
  | 0, _, lastErr, att, ws =>
      { ret := .error (lastErr.getD ""), attempts := att, waits := ws.reverse }
  | r + 1, a, lastErr, att, ws =>
      match buildErr a with
      | some e => { ret := .error e, attempts := att, waits := ws.reverse }
      | none =>
          if attemptOk (env a) then
            { ret := .ok (), attempts := att + 1, waits := ws.reverse }
          else
            match cancel a with
            | some cmsg =>
                { ret := .error cmsg, attempts := att + 1, waits := ws.reverse }
            | none =>
                notifyGo env cancel buildErr r (a + 1)
                  (some (errText (env a))) (att + 1) (backoffMs 500 a :: ws)

/-- Embeds `httpsender.Notify` with `maxRetries` additional attempts and the
constructor's `baseBackoff` of 500ms: the loop runs `attempt` from 0 to
`maxRetries` inclusive. -/
def notify (maxRetries : Nat) (env : Nat → AttemptResult)
    (cancel : Nat → Option String) (buildErr : Nat → Option String) :
    NotifyRun :=
  notifyGo env cancel buildErr (maxRetries + 1) 0 none 0 []

/-! ## Log streamer (internal/jobs streamer.go / part_001) -/

/-- A websocket connection as the streamer sees it: whether
`WriteMessage` currently fails on it, and the messages successfully
written so far. -/
structure WConn where
  cid : Nat
  broken : Bool
  log : List String
deriving DecidableEq, Repr

/-- Embeds `conn.WriteMessage(websocket.TextMessage, message)`: on a broken
connection the write fails and the log is unchanged. -/
def writeMessage (c : WConn) (message : String) : WConn × Option String :=
  if c.broken then (c, some "write failed")
  else ({ c with log := c.log ++ [message] }, none)

/-- The loop body of `LogStreamer.Broadcast` over one job's subscriber
list: each connection is written in order; a write error is ignored
(the source's error branch is empty) and iteration continues. -/
def broadcastConns (message : String) : List WConn → List WConn
  | [] => []
  | c :: rest =>
      let w := writeMessage c message
      w.1 :: broadcastConns message rest

/-- Embeds `LogStreamer.Broadcast`: look up the job's subscribers
(`ls.subscribers[jobID]`, the empty list when absent) and write the
message to each. -/
def lsBroadcast (subscribers : List (String × List WConn)) (jobID : String)
    (message : String) : List (String × List WConn) :=
  subscribers.map fun e =>
    if e.1 = jobID then (e.1, broadcastConns message e.2) else e

/-! ## Job manager and store (internal/jobs manager.go, store.go) -/

/-- Association-list update used to model `sync.Map.Store`. -/
def assocSet (l : List (String × Nat)) (k : String) (v : Nat) :
    List (String × Nat) :=
  (k, v) :: l.filter (fun e => e.1 ≠ k)

/-- Association-list lookup used to model `sync.Map.Load`. -/
def assocGet (l : List (String × Nat)) (k : String) : Option Nat :=
  (l.find? (fun e => e.1 = k)).map (fun e => e.2)

/-- Manager + store state.  `heap` models the allocated `Job` records
(`*Job` pointers are indices into it); `idx` is the `InMemoryStore`'s
map from id to pointer; `queue` is the buffered `jobsChan`; `stopped`
is the manager's atomic flag. -/
structure MState where
  heap : List Job
  idx : List (String × Nat)
  stopped : Bool
  queue : List String
deriving DecidableEq, Repr

/-- The empty initial state of a freshly constructed manager and store. -/
def mstate0 : MState :=
  { heap := [], idx := [], stopped := false, queue := [] }

/-- Embeds `InMemoryStore.Get`: returns the stored pointer (heap index), not a
copy of the record. -/
def storeGetPtr (st : MState) (id : String) : Option Nat :=
  assocGet st.idx id

/-- Dereference a `*Job`. -/
def derefJob (st : MState) (ptr : Nat) : Option Job :=
  st.heap.get? ptr

/-- Embeds `InMemoryStore.Create` on a freshly allocated `&Job`: allocate the
record on the heap and map its id to the new pointer. -/
def storeCreate (st : MState) (job : Job) : MState :=
  { st with heap := st.heap ++ [job], idx := assocSet st.idx job.id st.heap.length }

/-- Embeds `Manager.notify`: skipped entirely when the job has no webhook URL,
otherwise one `webhook.Event` built from the job snapshot. -/
def notifyEvents (job : Job) (now : Nat) : List Event :=
  if job.webhookURL = "" then []
  else
    [{ jobID := job.id
       data := job
       status :=
         match job.status with
         | .queued => "queued"
         | .inProgress => "in_progress"
         | .completed => "completed"
         | .failed => "failed"
       error := job.error
       timestamp := now
       metadata := job.metadata }]

/-- Everything `Manager.Submit` produced: the new state, the returned
`(jobID, error)` pair, the notifications fired (including by the
deferred `m.notify`), and the store writes it performed (each recorded
as the job value written). -/
structure SubmitOut where
  state : MState
  ret : Except String String
  notifs : List Event
  writes : List Job
deriving Repr

/-- Embeds `Manager.Submit`: build a Queued job with the generated id, persist
it via `store.Create`, register the deferred queued-state notification,
then fail with "manager stopped" if the stop flag is set, else enqueue
the id on `jobsChan`.  The deferred notification runs on both return
paths, after the store write; the store write is never rolled back. -/
def managerSubmit (st : MState) (genId : String) (now : Nat)
    (req : CreateJobRequest) : SubmitOut :=
  let job : Job :=
    { id := genId
      command := req.command
      args := req.args
      workingDir := req.workingDir
      webhookURL := req.webhookURL
      metadata := req.metadata
      status := .queued
      error := ""
      createdAt := now
      startedAt := none
      completedAt := none
      exitCode := none
      stdout := none
      stderr := none }
  let st1 := storeCreate st job
  let ns := notifyEvents job now
  if st1.stopped then
    { state := st1, ret := .error "manager stopped", notifs := ns, writes := [job] }
  else
    { state := { st1 with queue := st1.queue ++ [genId] }
      ret := .ok genId, notifs := ns, writes := [job] }

/-- Embeds `Manager.Get`: `store.Get` then dereference — the caller receives a
value copy (`return *j, true`), not the pointer. -/
def managerGet (st : MState) (id : String) : Option Job :=
  (storeGetPtr st id).bind (derefJob st)

/-- The runner as the manager calls it:
`m.runner.Run(ctx, job.ID, job.Command, job.Args, job.WorkingDir, w, w)`. -/
def RunnerFn := String → String → List String → String → RunReturn

/-- Everything one call of `Manager.execute` produced. -/
structure ExecOut where
  state : MState
  notifs : List Event
  broadcasts : List String
  writes : List Job
deriving DecidableEq, Repr

/-- Embeds `Manager.execute`: fetch the job pointer from the store, mutate the
shared record to InProgress (visible in the store through the pointer;
`store.Update` re-stores the same pointer), notify, broadcast the start
line, run the command, then mutate the record to Failed (on a runner
error, capturing only the error text) or to Completed (capturing exit
code, stdout and stderr), update, notify.  A missing job only logs a
warning. -/
def managerExecute (st : MState) (id : String) (runner : RunnerFn)
    (now done : Nat) : ExecOut :=
  match storeGetPtr st id with
  | none => { state := st, notifs := [], broadcasts := [], writes := [] }
  | some ptr =>
    match derefJob st ptr with
    | none => { state := st, notifs := [], broadcasts := [], writes := [] }
    | some job0 =>
      let job1 := { job0 with status := .inProgress, startedAt := some now }
      let st1 := { st with heap := st.heap.set ptr job1 }
      let startNotifs := notifyEvents job1 now
      let startCasts := ["Job started...\n"]
      let r := runner id job1.command job1.args job1.workingDir
      match r.errMsg with
      | some e =>
          let job2 := { job1 with status := .failed, error := e }
          let st2 := { st1 with heap := st1.heap.set ptr job2 }
          { state := st2
            notifs := startNotifs ++ notifyEvents job2 done
            broadcasts :=
              startCasts ++ [r.stdoutForwarded, r.stderrForwarded]
                ++ ["Job failed: " ++ e ++ "\n"]
            writes := [job1, job2] }
      | none =>
          match r.res with
          | none => { state := st1, notifs := startNotifs
                      broadcasts := startCasts, writes := [job1] }
          | some result =>
              let job2 :=
                { job1 with exitCode := some result.exitCode
                            stdout := some result.stdout
                            stderr := some result.stderr
                            status := .completed
                            completedAt := some done }
              let st2 := { st1 with heap := st1.heap.set ptr job2 }
              { state := st2
                notifs := startNotifs ++ notifyEvents job2 done
                broadcasts := startCasts ++ [r.stdoutForwarded, r.stderrForwarded]
                writes := [job1, job2] }

/-- A `RunnerFn` backed by the real executor with the given
configuration, file system and process outcome. -/
def execRunnerFn (cfg : ExecutorConfig) (fs : FileSystem) (statErrMsg : String)
    (startTime : Nat) (outcome : ProcOutcome) : RunnerFn :=
  fun jobID command args workingDir =>
    execRun cfg fs statErrMsg jobID command args workingDir startTime outcome

/-- A file system with no entries. -/
def fsEmpty : FileSystem := fun _ => none

/-! ## Concrete fixtures used by the scenario theorems -/

/-- The runner configuration built by `NewExecRunner()` in `cmd/api`
main, with no `DEFAULT_COMMAND` in the environment. -/
def cfg0 : ExecutorConfig := defaultExecConfig ""

/-- Request of the spec scenario `submit {command:"false"}`. -/
def reqFalse : CreateJobRequest :=
  { command := "false", args := [], workingDir := "", webhookURL := "", metadata := [] }

/-- Request of the spec scenario `submit {command:"echo", args:["hi"]}`
with no webhook URL. -/
def reqEcho : CreateJobRequest :=
  { command := "echo", args := ["hi"], workingDir := "", webhookURL := "", metadata := [] }

/-- Request of the spec scenario `submit {command:""}`. -/
def reqEmpty : CreateJobRequest :=
  { command := "", args := [], workingDir := "", webhookURL := "", metadata := [] }

/-- The submit step of the `false` scenario. -/
def subFalse : SubmitOut := managerSubmit mstate0 "job-1" 0 reqFalse

/-- The execute step of the `false` scenario: `/usr/bin/false` starts
and exits cleanly with code 1, writing nothing. -/
def exFalse : ExecOut :=
  managerExecute subFalse.state "job-1"
    (execRunnerFn cfg0 fsEmpty "" 1 (.exited 1 "" "")) 1 2

/-- The submit step of the `echo hi` scenario. -/
def subEcho : SubmitOut := managerSubmit mstate0 "job-1" 0 reqEcho

/-- The execute step of the `echo hi` scenario: the process exits 0
after writing `hi\n` to stdout. -/
def exEcho : ExecOut :=
  managerExecute subEcho.state "job-1"
    (execRunnerFn cfg0 fsEmpty "" 1 (.exited 0 "hi\n" "")) 1 2

/-- The value of `lastErr` after `k` consecutive failed attempts
starting at attempt index `a` (`lastErr` itself when `k = 0`). -/
def lastErrAfter (env : Nat → AttemptResult) (a : Nat) (lastErr : Option String) :
    Nat → Option String
  | 0 => lastErr
  | k + 1 => some (errText (env (a + k)))

/-! ## Helper lemmas -/

theorem assocGet_assocSet (l : List (String × Nat)) (k : String) (v : Nat) :
    assocGet (assocSet l k v) k = some v := by
  simp [assocGet, assocSet]

theorem get?_append_length {α : Type} (l : List α) (a : α) :
    (l ++ [a]).get? l.length = some a := by
  induction l with
  | nil => rfl
  | cons x xs ih => simp only [List.cons_append, List.length_cons]; exact ih

/-- Fact that `execRun` never returns a nil result together with a nil error:
every non-validation path yields `res = some _`. -/
theorem execRun_res_of_no_error (cfg : ExecutorConfig) (fs : FileSystem)
    (semsg jid cmd : String) (args : List String) (wd : String) (t : Nat)
    (oc : ProcOutcome)
    (h : (execRun cfg fs semsg jid cmd args wd t oc).errMsg = none) :
    ∃ r, (execRun cfg fs semsg jid cmd args wd t oc).res = some r := by
  unfold execRun at *
  rcases hv : validateInput cfg cmd jid with _ | e
  · simp only [hv] at h ⊢
    rcases hw : (if wd = "" then none else validateWorkingDir fs semsg wd) with _ | e2
    · simp only [hw] at h ⊢
      exact ⟨_, rfl⟩
    · simp [hw] at h
  · simp [hv] at h

/-- After `managerSubmit`, the store maps the generated id to the
freshly allocated pointer `st.heap.length`, regardless of the stop
flag. -/
theorem storeGetPtr_after_submit (st : MState) (genId : String) (now : Nat)
    (req : CreateJobRequest) :
    storeGetPtr (managerSubmit st genId now req).state genId =
      some st.heap.length := by
  unfold managerSubmit storeGetPtr storeCreate
  by_cases hs : st.stopped <;> simp [hs, assocGet_assocSet]

/-- After `managerSubmit`, dereferencing the fresh pointer yields the
Queued job record built by Submit. -/
theorem derefJob_after_submit (st : MState) (genId : String) (now : Nat)
    (req : CreateJobRequest) :
    derefJob (managerSubmit st genId now req).state st.heap.length =
      some { id := genId, command := req.command, args := req.args
             workingDir := req.workingDir, webhookURL := req.webhookURL
             metadata := req.metadata, status := .queued, error := ""
             createdAt := now, startedAt := none, completedAt := none
             exitCode := none, stdout := none, stderr := none } := by
  unfold managerSubmit derefJob storeCreate
  by_cases hs : st.stopped <;> simp [hs, get?_append_length]

/-- Shifting lemma for `lastErrAfter`: absorbing one failed attempt at
the front. -/
theorem lastErrAfter_shift (env : Nat → AttemptResult) (a : Nat)
    (lastErr : Option String) (j : Nat) :
    lastErrAfter env (a + 1) (some (errText (env a))) j =
      lastErrAfter env a lastErr (j + 1) := by
  cases j with
  | zero => rfl
  | succ j' =>
      show some (errText (env (a + 1 + j'))) = some (errText (env (a + (j' + 1))))
      have harg : a + 1 + j' = a + (j' + 1) := by omega
      rw [harg]

/-- Stepping through `k` consecutive failed, uncancelled attempts of
the `Notify` retry loop: the loop advances to attempt `a + k`, having
issued `k` more requests and slept the backoffs of attempts
`a … a + k - 1`. -/
theorem notifyGo_skip (env : Nat → AttemptResult)
    (cancel buildErr : Nat → Option String) :
    ∀ (k r a att : Nat) (lastErr : Option String) (ws : List Nat),
    (∀ i, i < k →
      buildErr (a + i) = none ∧ attemptOk (env (a + i)) = false
        ∧ cancel (a + i) = none) →
    notifyGo env cancel buildErr (k + r) a lastErr att ws =
      notifyGo env cancel buildErr r (a + k) (lastErrAfter env a lastErr k)
        (att + k) (((List.range' a k).map (backoffMs 500)).reverse ++ ws) := by
  intro k
  induction k with
  | zero =>
      intro r a att lastErr ws _
      simp [lastErrAfter, List.range']
  | succ j ih =>
      intro r a att lastErr ws h
      have h0 := h 0 (by omega)
      simp only [Nat.add_zero] at h0
      have hfuel : j + 1 + r = j + r + 1 := by omega
      rw [hfuel]
      simp only [notifyGo, h0.1, h0.2.1, h0.2.2, Bool.false_eq_true, if_false]
      have hsh : ∀ i, i < j →
          buildErr (a + 1 + i) = none ∧ attemptOk (env (a + 1 + i)) = false
            ∧ cancel (a + 1 + i) = none := by
        intro i hi
        have := h (i + 1) (by omega)
        have harg : a + (i + 1) = a + 1 + i := by omega
        rw [harg] at this
        exact this
      rw [ih r (a + 1) (att + 1) (some (errText (env a)))
        (backoffMs 500 a :: ws) hsh]
      rw [lastErrAfter_shift env a lastErr j]
      have harg1 : a + 1 + j = a + (j + 1) := by omega
      have harg2 : att + 1 + j = att + (j + 1) := by omega
      have hws : ((List.range' (a + 1) j).map (backoffMs 500)).reverse
            ++ (backoffMs 500 a :: ws)
          = ((List.range' a (j + 1)).map (backoffMs 500)).reverse ++ ws := by
        rw [List.range'_succ]
        simp
      rw [harg1, harg2, hws]

/-! ## Claim theorems -/

/-- C1 counterexample: for `{command:"false"}`, whose process starts
and exits cleanly with code 1, the executor's `Run` returns an
executor-level error (`command execution failed: exit status 1`) —
not success — and the manager transitions the job to Failed with no
exit code recorded, not to Completed with ExitCode 1. -/
theorem C1_counterexample :
    (execRun cfg0 fsEmpty "" "job-1" "false" [] "" 1 (.exited 1 "" "")).errMsg
      = some "command execution failed: exit status 1"
    ∧ (managerGet exFalse.state "job-1").map (fun j => (j.status, j.exitCode))
      = some (.failed, (none : Option Int)) := by
  exact ⟨rfl, rfl⟩

/-- C1 (amended): for every command that starts and exits on its own
with a non-zero exit code, `Run` returns the result with the exit code
recorded together with the executor-level error
`command execution failed: exit status N`, and the manager consequently
transitions the job to Failed carrying that error text; the exit code
is not copied into the terminal job record. -/
theorem C1_nonzero_exit_drives_failed (code : Int) (outB errB : String)
    (genId : String) (req : CreateJobRequest) (now t1 done : Nat)
    (hcode : ¬ (code = 0))
    (hid : ¬ (trimSpaceGo genId = ""))
    (hcmd : ¬ (req.command = ""))
    (hwd : req.workingDir = "") :
    (execRun cfg0 fsEmpty "" genId req.command req.args req.workingDir t1
        (.exited code outB errB)).errMsg
      = some ("command execution failed: " ++ exitStatusMsg code)
    ∧ ((execRun cfg0 fsEmpty "" genId req.command req.args req.workingDir t1
        (.exited code outB errB)).res.map (fun r => r.exitCode)) = some code
    ∧ (managerGet
        (managerExecute (managerSubmit mstate0 genId now req).state genId
          (execRunnerFn cfg0 fsEmpty "" t1 (.exited code outB errB)) t1
          done).state genId).map (fun j => (j.status, j.error, j.exitCode)) =
      some (.failed, "command execution failed: " ++ exitStatusMsg code,
        (none : Option Int)) := by
  refine ⟨?_, ?_, ?_⟩
  · simp [execRun, validateInput, cfg0, defaultExecConfig, hid, hcmd, hwd,
      runWithCapturedOutput, hcode]
  · simp [execRun, validateInput, cfg0, defaultExecConfig, hid, hcmd, hwd,
      runWithCapturedOutput, hcode]
  · have hptr := storeGetPtr_after_submit mstate0 genId now req
    have hderef := derefJob_after_submit mstate0 genId now req
    unfold managerExecute
    simp only [hptr, hderef]
    simp only [execRunnerFn, execRun, validateInput, cfg0, defaultExecConfig,
      hid, hcmd, hwd, runWithCapturedOutput]
    simp only [if_false, ite_false, ite_true, and_self, if_true, hcode]
    unfold managerGet storeGetPtr derefJob
    simp [managerSubmit, storeCreate, mstate0, assocGet_assocSet,
      assocGet, assocSet, hcode]

/-- C1 witness: the amended claim at the concrete `false` scenario. -/
theorem C1_nonzero_exit_drives_failed_witness :
    (execRun cfg0 fsEmpty "" "job-1" reqFalse.command reqFalse.args
        reqFalse.workingDir 1 (.exited 1 "" "")).errMsg
      = some ("command execution failed: " ++ exitStatusMsg 1)
    ∧ ((execRun cfg0 fsEmpty "" "job-1" reqFalse.command reqFalse.args
        reqFalse.workingDir 1 (.exited 1 "" "")).res.map (fun r => r.exitCode))
      = some 1
    ∧ (managerGet
        (managerExecute (managerSubmit mstate0 "job-1" 0 reqFalse).state "job-1"
          (execRunnerFn cfg0 fsEmpty "" 1 (.exited 1 "" "")) 1 2).state
        "job-1").map (fun j => (j.status, j.error, j.exitCode)) =
      some (.failed, "command execution failed: " ++ exitStatusMsg 1,
        (none : Option Int)) :=
  C1_nonzero_exit_drives_failed 1 "" "" "job-1" reqFalse 0 1 2
    (by decide) (by decide) (by decide) rfl

/-- C2 counterexample: submitting `{command:""}` with no configured
default does NOT return a validation error — `Manager.Submit` performs
no validation at all — and a Queued job record for the generated id
does exist in the store afterwards, refuting the claim at this concrete
input. -/
theorem C2_counterexample :
    (managerSubmit mstate0 "job-1" 0 reqEmpty).ret = .ok "job-1"
    ∧ (managerGet (managerSubmit mstate0 "job-1" 0 reqEmpty).state "job-1").map
        Job.status = some .queued := by
  constructor
  · rfl
  · rfl

/-- C2 (amended): `Submit` performs no validation; an empty command
with no configured default command is accepted synchronously
(`Submit` returns the job id, and a Queued job exists in the store).
The validation error surfaces only asynchronously: the worker's call to
the executor's `Run` fails validation, and the job transitions to
Failed with the wrapped validation-error text. -/
theorem C2_validation_is_asynchronous (genId : String) (now t1 done : Nat)
    (req : CreateJobRequest) (oc : ProcOutcome)
    (hid : ¬ (trimSpaceGo genId = ""))
    (hcmd : req.command = "") :
    (managerSubmit mstate0 genId now req).ret = .ok genId
    ∧ (managerGet (managerSubmit mstate0 genId now req).state genId).map
        Job.status = some .queued
    ∧ (managerGet
        (managerExecute (managerSubmit mstate0 genId now req).state genId
          (execRunnerFn cfg0 fsEmpty "" t1 oc) t1 done).state genId).map
        (fun j => (j.status, j.error)) =
      some (.failed,
        "validation failed: command must not be empty and no default command configured") := by
  refine ⟨?_, ?_, ?_⟩
  · unfold managerSubmit
    simp [storeCreate, mstate0]
  · unfold managerGet
    rw [storeGetPtr_after_submit]
    simp [derefJob_after_submit]
  · have hptr := storeGetPtr_after_submit mstate0 genId now req
    have hderef := derefJob_after_submit mstate0 genId now req
    unfold managerExecute
    simp only [hptr, hderef]
    simp only [execRunnerFn, execRun, validateInput, cfg0, defaultExecConfig,
      hcmd, hid]
    simp only [if_false, ite_false, ite_true, and_self, if_true]
    unfold managerGet storeGetPtr derefJob
    simp [managerSubmit, storeCreate, mstate0, assocGet_assocSet,
      assocGet, assocSet]

/-- C2 witness: the amended claim at the concrete empty-command
scenario. -/
theorem C2_validation_is_asynchronous_witness :
    (managerSubmit mstate0 "job-1" 0 reqEmpty).ret = .ok "job-1"
    ∧ (managerGet (managerSubmit mstate0 "job-1" 0 reqEmpty).state "job-1").map
        Job.status = some .queued
    ∧ (managerGet
        (managerExecute (managerSubmit mstate0 "job-1" 0 reqEmpty).state "job-1"
          (execRunnerFn cfg0 fsEmpty "" 1 (.exited 0 "" "")) 1 2).state
        "job-1").map (fun j => (j.status, j.error)) =
      some (.failed,
        "validation failed: command must not be empty and no default command configured") :=
  C2_validation_is_asynchronous "job-1" 0 1 2 reqEmpty (.exited 0 "" "")
    (by decide) rfl

/-- C3: for the scenario `{command:"echo", args:["hi"]}` the default
(capture, non-streamed) execution path leaves `result.Stdout` empty
even though its `stdoutBuilder` collected `hi\n` through the
`io.MultiWriter` — the builders are never copied into the result on
this path, unlike `runWithStreamedOutput` and `runSimpleWithOutput` —
so Get ends with Completed, ExitCode 0, but Stdout `""` instead of the
specified `hi\n`. -/
theorem C3_stdout_not_captured :
    (runWithCapturedOutput (.exited 0 "hi\n" "")
        { jobID := "job-1", exitCode := 0, stdout := "", stderr := ""
          startTime := 1, endTime := 0, duration := 0, error := none }).stdoutBuilder
      = "hi\n"
    ∧ (runWithCapturedOutput (.exited 0 "hi\n" "")
        { jobID := "job-1", exitCode := 0, stdout := "", stderr := ""
          startTime := 1, endTime := 0, duration := 0, error := none }).result.stdout
      = ""
    ∧ (managerGet exEcho.state "job-1").map
        (fun j => (j.status, j.exitCode, j.stdout)) =
      some (.completed, some (0 : Int), some "") := by
  refine ⟨rfl, rfl, ?_⟩
  rfl

/-- C5: `Notify` returns success as soon as an attempt gets a 2xx
response (after `k` failures it has issued exactly `k + 1` requests and
slept the first `k` backoffs), and when all `maxRetries + 1` attempts
fail it sleeps an exponential backoff of `500ms * 2^attempt` plus the
linear jitter `attempt * 50ms` after each failure and finally returns
the last observed error — the error of attempt `maxRetries`. -/
theorem C5_notify_retry_backoff (maxRetries k : Nat)
    (env : Nat → AttemptResult) (cancel buildErr : Nat → Option String)
    (hb : ∀ a, buildErr a = none) (hc : ∀ a, cancel a = none) :
    ((∀ i, i < k → attemptOk (env i) = false) → attemptOk (env k) = true →
      k ≤ maxRetries →
      notify maxRetries env cancel buildErr =
        { ret := .ok (), attempts := k + 1
          waits := (List.range k).map (backoffMs 500) })
    ∧ ((∀ i, i ≤ maxRetries → attemptOk (env i) = false) →
      notify maxRetries env cancel buildErr =
        { ret := .error (errText (env maxRetries))
          attempts := maxRetries + 1
          waits := (List.range (maxRetries + 1)).map (backoffMs 500) }) := by
  constructor
  · intro hfail hsucc hk
    unfold notify
    have hsplit : maxRetries + 1 = k + (maxRetries + 1 - k) := by omega
    rw [hsplit, notifyGo_skip env cancel buildErr k (maxRetries + 1 - k) 0 0
      none [] (fun i hi => ⟨hb _, by simpa using hfail i hi, hc _⟩)]
    have hr : maxRetries + 1 - k = (maxRetries - k) + 1 := by omega
    rw [hr]
    simp only [notifyGo, hb, Nat.zero_add, hsucc, if_true]
    simp [List.range_eq_range']
  · intro hfail
    unfold notify
    have hsplit : maxRetries + 1 = (maxRetries + 1) + 0 := by omega
    rw [hsplit, notifyGo_skip env cancel buildErr (maxRetries + 1) 0 0 0
      none [] (fun i hi => ⟨hb _, by simpa using hfail i (by omega), hc _⟩)]
    simp only [notifyGo, lastErrAfter, Nat.zero_add]
    simp [List.range_eq_range']

/-- C5 witness: an endpoint failing once with a 500 then returning 200,
with two additional attempts allowed — Notify succeeds after two
requests and one 500ms backoff sleep. -/
theorem C5_notify_retry_backoff_witness :
    notify 2 (fun a => if a = 0 then .resp 500 "500 Internal Server Error"
        else .resp 200 "200 OK") (fun _ => none) (fun _ => none) =
      { ret := .ok (), attempts := 1 + 1
        waits := (List.range 1).map (backoffMs 500) } :=
  (C5_notify_retry_backoff 2 1
      (fun a => if a = 0 then .resp 500 "500 Internal Server Error"
        else .resp 200 "200 OK")
      (fun _ => none) (fun _ => none) (fun _ => rfl) (fun _ => rfl)).1
    (by decide) (by decide) (by decide)

/-- C6: when the context is cancelled during the backoff wait that
follows attempt `k`, `Notify` returns the context's cancellation error
at once, having issued exactly the `k + 1` requests made so far and no
further HTTP attempts. -/
theorem C6_cancel_during_backoff (maxRetries k : Nat) (cmsg : String)
    (env : Nat → AttemptResult) (cancel buildErr : Nat → Option String)
    (hb : ∀ a, buildErr a = none)
    (hclt : ∀ i, i < k → cancel i = none)
    (hck : cancel k = some cmsg)
    (hfail : ∀ i, i ≤ k → attemptOk (env i) = false)
    (hk : k ≤ maxRetries) :
    notify maxRetries env cancel buildErr =
      { ret := .error cmsg, attempts := k + 1
        waits := (List.range k).map (backoffMs 500) } := by
  unfold notify
  have hsplit : maxRetries + 1 = k + (maxRetries + 1 - k) := by omega
  rw [hsplit, notifyGo_skip env cancel buildErr k (maxRetries + 1 - k) 0 0
    none [] (fun i hi =>
      ⟨hb _, by simpa using hfail i (by omega), by simpa using hclt i hi⟩)]
  have hr : maxRetries + 1 - k = (maxRetries - k) + 1 := by omega
  rw [hr]
  simp only [notifyGo, hb, Nat.zero_add, hck,
    hfail k (by omega), Bool.false_eq_true, if_false]
  simp [List.range_eq_range']

/-- C6 witness: a persistently failing endpoint with cancellation
arriving during the backoff after the second attempt — Notify returns
the cancellation error after exactly two requests. -/
theorem C6_cancel_during_backoff_witness :
    notify 3 (fun _ => .fail "connection refused")
        (fun a => if a = 1 then some "context canceled" else none)
        (fun _ => none) =
      { ret := .error "context canceled", attempts := 1 + 1
        waits := (List.range 1).map (backoffMs 500) } :=
  C6_cancel_during_backoff 3 1 "context canceled"
    (fun _ => .fail "connection refused")
    (fun a => if a = 1 then some "context canceled" else none)
    (fun _ => none) (fun _ => rfl) (by decide) (by decide) (by decide)
    (by decide)

/-- C8 counterexample: with `MaxOutputSize = 5` a single scanned line
of 8 bytes is appended whole, leaving the accumulator at 9 bytes — the
accumulator DOES exceed the configured maximum, refuting the claim's
"never exceeds" at this concrete input. -/
theorem C8_counterexample :
    (streamAndCapture 5 ["aaaaaaaa"]).1 = "aaaaaaaa\n"
    ∧ 5 < (streamAndCapture 5 ["aaaaaaaa"]).1.length := by
  constructor
  · rfl
  · decide

/-- C8 (amended): a scanned line is appended to the accumulator only
when the accumulator's current size is strictly below the configured
maximum, so the accumulator can overshoot the cap by at most one
newline-terminated line: with cap `M > 0` and every line at most `L`
bytes, the final accumulator is at most `M.toNat + L` bytes.  Every
line is still forwarded, newline-terminated, to the caller-supplied
writer regardless of the cap. -/
theorem C8_cap_overshoot_bound (M : Int) (L : Nat) (lines : List String)
    (hM : 0 < M) (hL : ∀ l ∈ lines, l.length ≤ L) :
    (streamAndCapture M lines).1.length ≤ M.toNat + L
    ∧ (streamAndCapture M lines).2 = lines.map (fun l => l ++ "\n") := by
  refine ⟨?_, rfl⟩
  have hnl : ("\n" : String).length = 1 := rfl
  have key : ∀ (ls : List String) (acc : String),
      (∀ l ∈ ls, l.length ≤ L) → acc.length ≤ M.toNat + L →
      (ls.foldl (streamAndCaptureStep M) acc).length ≤ M.toNat + L := by
    intro ls
    induction ls with
    | nil => intro acc _ h; simpa using h
    | cons x xs ih =>
        intro acc hl hacc
        simp only [List.foldl_cons]
        refine ih _ (fun l hm => hl l (by simp [hm])) ?_
        unfold streamAndCaptureStep
        split
        · rename_i hcond
          rcases hcond with h0 | hlt
          · omega
          · have hx : x.length ≤ L := hl x (by simp)
            have hacc' : acc.length < M.toNat := by omega
            simp only [String.length_append, hnl]
            omega
        · exact hacc
  exact key lines "" hL (by simp)

/-- C8 witness: the amended claim at cap 5 with one 8-byte line — the
accumulator (9 bytes) stays within the overshoot bound 5 + 8, and the
line is forwarded newline-terminated. -/
theorem C8_cap_overshoot_bound_witness :
    (streamAndCapture 5 ["aaaaaaaa"]).1.length ≤ (5 : Int).toNat + 8
    ∧ (streamAndCapture 5 ["aaaaaaaa"]).2 =
        ["aaaaaaaa"].map (fun l => l ++ "\n") :=
  C8_cap_overshoot_bound 5 8 ["aaaaaaaa"] (by decide) (by decide)

/-- C4: across the lifecycle of a submitted job — `Submit`'s store
write, then the worker's `execute` with the real executor in any
configuration, on any file system and process outcome — the sequence of
job values written to the store carries exactly the statuses
Queued, InProgress, and then exactly one of Completed or Failed. -/
theorem C4_status_lifecycle (st : MState) (genId : String) (now t1 done : Nat)
    (req : CreateJobRequest) (cfg : ExecutorConfig) (fs : FileSystem)
    (semsg : String) (tr : Nat) (oc : ProcOutcome)
    (hstop : st.stopped = false) :
    ((managerSubmit st genId now req).writes
      ++ (managerExecute (managerSubmit st genId now req).state genId
            (execRunnerFn cfg fs semsg tr oc) t1 done).writes).map Job.status
      = [.queued, .inProgress, .completed]
    ∨ ((managerSubmit st genId now req).writes
      ++ (managerExecute (managerSubmit st genId now req).state genId
            (execRunnerFn cfg fs semsg tr oc) t1 done).writes).map Job.status
      = [.queued, .inProgress, .failed] := by
  have hptr := storeGetPtr_after_submit st genId now req
  have hderef := derefJob_after_submit st genId now req
  have hw : (managerSubmit st genId now req).writes =
      [{ id := genId, command := req.command, args := req.args
         workingDir := req.workingDir, webhookURL := req.webhookURL
         metadata := req.metadata, status := .queued, error := ""
         createdAt := now, startedAt := none, completedAt := none
         exitCode := none, stdout := none, stderr := none }] := by
    unfold managerSubmit
    simp [storeCreate, hstop]
  unfold managerExecute
  simp only [hptr, hderef]
  rcases hE : (execRun cfg fs semsg genId req.command req.args req.workingDir
      tr oc).errMsg with _ | e
  · obtain ⟨r, hr⟩ := execRun_res_of_no_error cfg fs semsg genId req.command
      req.args req.workingDir tr oc hE
    left
    simp only [execRunnerFn, hE, hr, hw]
    simp
  · right
    simp only [execRunnerFn, hE, hw]
    simp

/-- C4 witness: the lifecycle of the concrete `false` scenario follows
Queued, InProgress, then one terminal status. -/
theorem C4_status_lifecycle_witness :
    ((managerSubmit mstate0 "job-1" 0 reqFalse).writes
      ++ (managerExecute (managerSubmit mstate0 "job-1" 0 reqFalse).state "job-1"
            (execRunnerFn cfg0 fsEmpty "" 1 (.exited 1 "" "")) 1 2).writes).map
        Job.status = [.queued, .inProgress, .completed]
    ∨ ((managerSubmit mstate0 "job-1" 0 reqFalse).writes
      ++ (managerExecute (managerSubmit mstate0 "job-1" 0 reqFalse).state "job-1"
            (execRunnerFn cfg0 fsEmpty "" 1 (.exited 1 "" "")) 1 2).writes).map
        Job.status = [.queued, .inProgress, .failed] :=
  C4_status_lifecycle mstate0 "job-1" 0 1 2 reqFalse cfg0 fsEmpty "" 1
    (.exited 1 "" "") rfl

/-- C7 counterexample: `InMemoryStore.Get` returns the stored pointer,
not a copy — in the concrete `false` scenario the store hands out the
same pointer before and after execution, and the record it points to
has been mutated in place by the manager, so the job record previously
returned by the store's Get did retroactively change. -/
theorem C7_counterexample :
    storeGetPtr subFalse.state "job-1" = some 0
    ∧ storeGetPtr exFalse.state "job-1" = some 0
    ∧ (derefJob subFalse.state 0).map Job.status = some .queued
    ∧ (derefJob exFalse.state 0).map Job.status = some .failed := by
  exact ⟨rfl, rfl, rfl, rfl⟩

/-- C7 (amended): the store's Get returns a pointer, not a copy: across
a job's execution the store keeps returning the same pointer while the
manager mutates the pointed-to record in place from Queued to a
terminal status.  Only `Manager.Get` copies on read (it dereferences
the pointer into a value), so the Job value obtained from `Manager.Get`
before execution still shows Queued. -/
theorem C7_store_get_is_aliased (st : MState) (genId : String)
    (now t1 done : Nat) (req : CreateJobRequest) (cfg : ExecutorConfig)
    (fs : FileSystem) (semsg : String) (tr : Nat) (oc : ProcOutcome) :
    storeGetPtr (managerSubmit st genId now req).state genId
      = some st.heap.length
    ∧ storeGetPtr (managerExecute (managerSubmit st genId now req).state genId
          (execRunnerFn cfg fs semsg tr oc) t1 done).state genId
      = some st.heap.length
    ∧ (managerGet (managerSubmit st genId now req).state genId).map Job.status
      = some .queued
    ∧ ((derefJob (managerExecute (managerSubmit st genId now req).state genId
          (execRunnerFn cfg fs semsg tr oc) t1 done).state st.heap.length).map
        Job.status = some .completed
      ∨ (derefJob (managerExecute (managerSubmit st genId now req).state genId
          (execRunnerFn cfg fs semsg tr oc) t1 done).state st.heap.length).map
        Job.status = some .failed) := by
  have hptr := storeGetPtr_after_submit st genId now req
  have hderef := derefJob_after_submit st genId now req
  have hlen : st.heap.length < (managerSubmit st genId now req).state.heap.length := by
    unfold managerSubmit
    by_cases hs : st.stopped <;> simp [hs, storeCreate]
  refine ⟨hptr, ?_, ?_, ?_⟩
  · unfold managerExecute
    simp only [hptr, hderef]
    rcases hE : (execRun cfg fs semsg genId req.command req.args req.workingDir
        tr oc).errMsg with _ | e
    · obtain ⟨r, hr⟩ := execRun_res_of_no_error cfg fs semsg genId req.command
        req.args req.workingDir tr oc hE
      simp only [execRunnerFn, hE, hr]
      exact hptr
    · simp only [execRunnerFn, hE]
      exact hptr
  · unfold managerGet
    rw [hptr]
    simp [hderef]
  · unfold managerExecute
    simp only [hptr, hderef]
    rcases hE : (execRun cfg fs semsg genId req.command req.args req.workingDir
        tr oc).errMsg with _ | e
    · obtain ⟨r, hr⟩ := execRun_res_of_no_error cfg fs semsg genId req.command
        req.args req.workingDir tr oc hE
      left
      simp only [execRunnerFn, hE, hr]
      unfold derefJob
      simp only []
      rw [List.get?_eq_getElem?]
      rw [List.getElem?_set_self]
      · rfl
      · simpa using hlen
    · right
      simp only [execRunnerFn, hE]
      unfold derefJob
      simp only []
      rw [List.get?_eq_getElem?]
      rw [List.getElem?_set_self]
      · rfl
      · simpa using hlen

/-- C7 witness: the amended claim at the concrete `false` scenario. -/
theorem C7_store_get_is_aliased_witness :
    storeGetPtr (managerSubmit mstate0 "job-1" 0 reqFalse).state "job-1"
      = some mstate0.heap.length
    ∧ storeGetPtr (managerExecute (managerSubmit mstate0 "job-1" 0 reqFalse).state
          "job-1" (execRunnerFn cfg0 fsEmpty "" 1 (.exited 1 "" "")) 1 2).state
        "job-1" = some mstate0.heap.length
    ∧ (managerGet (managerSubmit mstate0 "job-1" 0 reqFalse).state "job-1").map
        Job.status = some .queued
    ∧ ((derefJob (managerExecute (managerSubmit mstate0 "job-1" 0 reqFalse).state
          "job-1" (execRunnerFn cfg0 fsEmpty "" 1 (.exited 1 "" "")) 1 2).state
        mstate0.heap.length).map Job.status = some .completed
      ∨ (derefJob (managerExecute (managerSubmit mstate0 "job-1" 0 reqFalse).state
          "job-1" (execRunnerFn cfg0 fsEmpty "" 1 (.exited 1 "" "")) 1 2).state
        mstate0.heap.length).map Job.status = some .failed) :=
  C7_store_get_is_aliased mstate0 "job-1" 0 1 2 reqFalse cfg0 fsEmpty "" 1
    (.exited 1 "" "")

/-- C9: `Broadcast` writes the identical payload to every subscriber of
the job, in subscriber order — the result list is the element-wise
image of `writeMessage` — and a failing write on one connection leaves
that connection unchanged without preventing the writes to all the
others. -/
theorem C9_broadcast_all_in_order (message : String) (conns : List WConn) :
    broadcastConns message conns = conns.map (fun c => (writeMessage c message).1)
    ∧ (∀ c : WConn, c.broken = false →
        (writeMessage c message).1 = { c with log := c.log ++ [message] })
    ∧ (∀ c : WConn, c.broken = true → (writeMessage c message).1 = c) := by
  refine ⟨?_, ?_, ?_⟩
  · induction conns with
    | nil => rfl
    | cons c rest ih => simp only [broadcastConns, List.map_cons, ih]
  · intro c h
    simp [writeMessage, h]
  · intro c h
    simp [writeMessage, h]

/-- C9 witness: broadcasting `x` to a broken and a healthy subscriber
delivers to the healthy one and leaves the broken one unchanged. -/
theorem C9_broadcast_witness :
    broadcastConns "x" [⟨0, true, []⟩, ⟨1, false, []⟩] =
      [⟨0, true, []⟩, ⟨1, false, ["x"]⟩] := by
  rw [(C9_broadcast_all_in_order "x" [⟨0, true, []⟩, ⟨1, false, []⟩]).1]
  decide

/-- C10: when the manager has begun stopping, `Submit` returns the
"manager stopped" error and enqueues nothing, but the Queued job record
created before the check stays in the store (the write is not rolled
back), and the deferred queued-state notification still fires exactly
when a webhook URL is present. -/
theorem C10_submit_not_rolled_back (st : MState) (genId : String) (now : Nat)
    (req : CreateJobRequest) (hstop : st.stopped = true) :
    (managerSubmit st genId now req).ret = .error "manager stopped"
    ∧ (managerSubmit st genId now req).state.queue = st.queue
    ∧ (managerGet (managerSubmit st genId now req).state genId).map Job.status
        = some .queued
    ∧ (managerSubmit st genId now req).notifs.length =
        (if req.webhookURL = "" then 0 else 1)
    ∧ (∀ e ∈ (managerSubmit st genId now req).notifs,
        e.status = "queued" ∧ e.jobID = genId) := by
  refine ⟨?_, ?_, ?_, ?_, ?_⟩
  · unfold managerSubmit
    simp [storeCreate, hstop]
  · unfold managerSubmit
    simp [storeCreate, hstop]
  · unfold managerGet
    rw [storeGetPtr_after_submit]
    simp [derefJob_after_submit]
  · unfold managerSubmit
    by_cases hw : req.webhookURL = "" <;>
      simp [storeCreate, hstop, notifyEvents, hw]
  · intro e he
    unfold managerSubmit at he
    by_cases hw : req.webhookURL = ""
    · simp [storeCreate, hstop, notifyEvents, hw] at he
    · simp [storeCreate, hstop, notifyEvents, hw] at he
      subst he
      exact ⟨rfl, rfl⟩

/-- C10 witness: a stopped manager receiving a request with a webhook
URL — the error is returned, the Queued record exists, and one queued
notification fired. -/
theorem C10_submit_not_rolled_back_witness :
    (managerSubmit { mstate0 with stopped := true } "job-1" 0
        { reqFalse with webhookURL := "http://h" }).ret = .error "manager stopped"
    ∧ (managerSubmit { mstate0 with stopped := true } "job-1" 0
        { reqFalse with webhookURL := "http://h" }).state.queue =
      ({ mstate0 with stopped := true } : MState).queue
    ∧ (managerGet (managerSubmit { mstate0 with stopped := true } "job-1" 0
        { reqFalse with webhookURL := "http://h" }).state "job-1").map Job.status
        = some .queued
    ∧ (managerSubmit { mstate0 with stopped := true } "job-1" 0
        { reqFalse with webhookURL := "http://h" }).notifs.length =
        (if ({ reqFalse with webhookURL := "http://h" } : CreateJobRequest).webhookURL = ""
          then 0 else 1)
    ∧ (∀ e ∈ (managerSubmit { mstate0 with stopped := true } "job-1" 0
        { reqFalse with webhookURL := "http://h" }).notifs,
        e.status = "queued" ∧ e.jobID = "job-1") :=
  C10_submit_not_rolled_back { mstate0 with stopped := true } "job-1" 0
    { reqFalse with webhookURL := "http://h" } rfl

end Childprocess
